import Mathlib

/-!
Verification development for the semantic-view workshop notebook
(getting-started-with-snowflake-semantic-view.ipynb).

The notebook has three verifiable layers, each embedded below from the
source text of the notebook cells:

1. the CREATE SEMANTIC VIEW declaration (tables, relationships, facts,
   dimensions, metrics) of TPCDS_SEMANTIC_VIEW_SM, embedded as concrete
   lists of declaration records together with the name-resolution rule
   used by the engine (an unqualified column in a fact, dimension or
   metric resolves against the base table of the qualifying alias; a
   qualified reference such as item.cost resolves to the already
   declared fact of that alias);
2. the sequence of SQL statements the notebook issues, embedded as a
   list of statement forms, one per executed statement, in cell order;
3. the two Streamlit cells (App 1, the interactive visualization, and
   App 2, the dashboard), embedded as pure functions from the input
   dataframe df and the widget selections to the list of rendered
   widgets.  Sales quantities are integers (the int64 column coming
   back from SUM(SS_QUANTITY)); the mean and the percentage delta are
   rationals, mirroring the float results of pandas mean and division.

SQL identifiers are case-insensitive; they are stored uppercased here.
-/

/-! ### Part 1: the semantic view declaration -/

/-- One entry of the tables clause: the alias, the base table it names
(alias = base table when no AS clause is present), and the declared
primary key column. -/
structure TableDecl where
  tblAlias : String
  baseTable : String
  primaryKey : String
deriving DecidableEq

/-- One entry of the relationships clause:
relName as src(srcCol) references dst(dstCol). -/
structure RelDecl where
  relName : String
  src : String
  srcCol : String
  dst : String
  dstCol : String
deriving DecidableEq

/-- One entry of the facts or dimensions clause: tbl.name as col. -/
structure ColDecl where
  tbl : String
  name : String
  col : String
deriving DecidableEq

/-- The aggregand of a metric: either a bare column name, or a
qualified reference alias.field to a declared fact. -/
inductive MetricExpr where
  | sumCol (c : String)
  | sumFieldRef (tblAlias fieldName : String)
deriving DecidableEq

/-- One entry of the metrics clause: tbl.name as SUM(expr). -/
structure MetricDecl where
  tbl : String
  name : String
  expr : MetricExpr
deriving DecidableEq

/-- The tables clause of TPCDS_SEMANTIC_VIEW_SM. -/
def semTables : List TableDecl :=
  [⟨"CUSTOMER", "CUSTOMER", "C_CUSTOMER_SK"⟩,
   ⟨"DATE", "DATE_DIM", "D_DATE_SK"⟩,
   ⟨"DEMO", "CUSTOMER_DEMOGRAPHICS", "CD_DEMO_SK"⟩,
   ⟨"ITEM", "ITEM", "I_ITEM_SK"⟩,
   ⟨"STORE", "STORE", "S_STORE_SK"⟩,
   ⟨"STORESALES", "STORE_SALES", "SS_STORE_SK"⟩]

/-- The relationships clause of TPCDS_SEMANTIC_VIEW_SM. -/
def semRels : List RelDecl :=
  [⟨"SALESTOCUSTOMER", "STORESALES", "SS_CUSTOMER_SK", "CUSTOMER", "C_CUSTOMER_SK"⟩,
   ⟨"SALESTODATE", "STORESALES", "SS_SOLD_DATE_SK", "DATE", "D_DATE_SK"⟩,
   ⟨"SALESTODEMO", "STORESALES", "SS_CDEMO_SK", "DEMO", "CD_DEMO_SK"⟩,
   ⟨"SALESTOITEM", "STORESALES", "SS_ITEM_SK", "ITEM", "I_ITEM_SK"⟩,
   ⟨"SALETOSTORE", "STORESALES", "SS_STORE_SK", "STORE", "S_STORE_SK"⟩]

/-- The facts clause of TPCDS_SEMANTIC_VIEW_SM. -/
def semFacts : List ColDecl :=
  [⟨"ITEM", "COST", "I_WHOLESALE_COST"⟩,
   ⟨"ITEM", "PRICE", "I_CURRENT_PRICE"⟩,
   ⟨"STORE", "TAX_RATE", "S_TAX_PRECENTAGE"⟩,
   ⟨"STORESALES", "SALES_QUANTITY", "SS_QUANTITY"⟩]

/-- The dimensions clause of TPCDS_SEMANTIC_VIEW_SM. -/
def semDims : List ColDecl :=
  [⟨"CUSTOMER", "BIRTHYEAR", "C_BIRTH_YEAR"⟩,
   ⟨"CUSTOMER", "COUNTRY", "C_BIRTH_COUNTRY"⟩,
   ⟨"CUSTOMER", "C_CUSTOMER_SK", "C_CUSTOMER_SK"⟩,
   ⟨"DATE", "DATE", "D_DATE"⟩,
   ⟨"DATE", "D_DATE_SK", "D_DATE_SK"⟩,
   ⟨"DATE", "MONTH", "D_MOY"⟩,
   ⟨"DATE", "WEEK", "D_WEEK_SEQ"⟩,
   ⟨"DATE", "YEAR", "D_YEAR"⟩,
   ⟨"DEMO", "CD_DEMO_SK", "CD_DEMO_SK"⟩,
   ⟨"DEMO", "CREDIT_RATING", "CD_CREDIT_RATING"⟩,
   ⟨"DEMO", "MARITAL_STATUS", "CD_MARITAL_STATUS"⟩,
   ⟨"ITEM", "BRAND", "I_BRAND"⟩,
   ⟨"ITEM", "CATEGORY", "I_CATEGORY"⟩,
   ⟨"ITEM", "CLASS", "I_CLASS"⟩,
   ⟨"ITEM", "I_ITEM_SK", "I_ITEM_SK"⟩,
   ⟨"STORE", "MARKET", "S_MARKET_ID"⟩,
   ⟨"STORE", "SQUAREFOOTAGE", "S_FLOOR_SPACE"⟩,
   ⟨"STORE", "STATE", "S_STATE"⟩,
   ⟨"STORE", "STORECOUNTRY", "S_COUNTRY"⟩,
   ⟨"STORE", "S_STORE_SK", "S_STORE_SK"⟩,
   ⟨"STORESALES", "SS_CDEMO_SK", "SS_CDEMO_SK"⟩,
   ⟨"STORESALES", "SS_CUSTOMER_SK", "SS_CUSTOMER_SK"⟩,
   ⟨"STORESALES", "SS_ITEM_SK", "SS_ITEM_SK"⟩,
   ⟨"STORESALES", "SS_SOLD_DATE_SK", "SS_SOLD_DATE_SK"⟩,
   ⟨"STORESALES", "SS_STORE_SK", "SS_STORE_SK"⟩]

/-- The metrics clause of TPCDS_SEMANTIC_VIEW_SM. -/
def semMetrics : List MetricDecl :=
  [⟨"STORESALES", "TOTALCOST", MetricExpr.sumFieldRef "ITEM" "COST"⟩,
   ⟨"STORESALES", "TOTALSALESPRICE", MetricExpr.sumCol "SS_SALES_PRICE"⟩,
   ⟨"STORESALES", "TOTALSALESQUANTITY", MetricExpr.sumCol "SS_QUANTITY"⟩]

/-- Resolve the aggregand of a metric to the (table alias, underlying
column) pair it denotes: a bare column resolves against the base table
of the qualifying alias of the metric itself; a qualified reference
resolves through the declared fact of the referenced alias. -/
def resolveMetric (m : MetricDecl) : Option (String × String) :=
  match m.expr with
  | MetricExpr.sumCol c => some (m.tbl, c)
  | MetricExpr.sumFieldRef t f =>
    (semFacts.find? fun fd => fd.tbl == t && fd.name == f).map fun fd => (fd.tbl, fd.col)

/-- A qualifier string names exactly one declared table alias. -/
def qualifiedByExactlyOneTable (t : String) : Bool :=
  (semTables.countP fun td => td.tblAlias == t) == 1

/-- The metric resolves to an underlying column of the very table
alias that qualifies the metric name. -/
def metricResolvesInOwnTable (m : MetricDecl) : Bool :=
  match resolveMetric m with
  | some (t, _) => t == m.tbl
  | none => false

/-- The C2 claim as stated: every fact, dimension and metric is
qualified by exactly one declared table alias, and its defining
expression references a column of that same table. -/
def claimC2Holds : Bool :=
  (semFacts.all fun f => qualifiedByExactlyOneTable f.tbl) &&
  (semDims.all fun d => qualifiedByExactlyOneTable d.tbl) &&
  (semMetrics.all fun m => qualifiedByExactlyOneTable m.tbl && metricResolvesInOwnTable m)

/-! ### Part 2: the SQL statements issued by the notebook -/

/-- The form of one executed SQL statement. -/
inductive SqlStmt where
  | useDatabase (db : String)
  | useSchema (sch : String)
  | useRole (roleName : String)
  | showViews
  | createOrReplaceSemanticView (viewName : String)
  | showSemanticViews
  | descSemanticView (viewName : String) (flowSelect : Bool)
  | selectScalar (descr : String)
  | selectFromSemanticView (viewName : String)
deriving DecidableEq

/-- Every SQL statement the notebook executes, in cell order: the
environment cell (USE DATABASE, USE SCHEMA, SHOW VIEWS), the creation
cell (USE ROLE, CREATE OR REPLACE SEMANTIC VIEW), SHOW SEMANTIC VIEWS,
DESC SEMANTIC VIEW piped through the flow operator into a projection,
the scalar SELECT building the Cortex Analyst URL, and the two
SELECT ... FROM SEMANTIC_VIEW queries. -/
def notebookStatements : List SqlStmt :=
  [SqlStmt.useDatabase "<MDT3_DEFAULT_DATABASE##>",
   SqlStmt.useSchema "DEFAULT_SCHEMA",
   SqlStmt.showViews,
   SqlStmt.useRole "ACCOUNTADMIN",
   SqlStmt.createOrReplaceSemanticView "TPCDS_SEMANTIC_VIEW_SM",
   SqlStmt.showSemanticViews,
   SqlStmt.descSemanticView "TPCDS_SEMANTIC_VIEW_SM" true,
   SqlStmt.selectScalar "CORTEX_ANALYST_URL",
   SqlStmt.selectFromSemanticView "TPCDS_SEMANTIC_VIEW_SM",
   SqlStmt.selectFromSemanticView "TPCDS_SEMANTIC_VIEW_SM"]

/-- Membership in the SQL surface listed by the C5 claim:
USE DATABASE/SCHEMA, SHOW VIEWS, CREATE OR REPLACE SEMANTIC VIEW,
SHOW SEMANTIC VIEWS, DESC SEMANTIC VIEW, and
SELECT ... FROM SEMANTIC_VIEW(...). -/
def consumedSurface : SqlStmt → Bool
  | SqlStmt.useDatabase _ => true
  | SqlStmt.useSchema _ => true
  | SqlStmt.useRole _ => false
  | SqlStmt.showViews => true
  | SqlStmt.createOrReplaceSemanticView _ => true
  | SqlStmt.showSemanticViews => true
  | SqlStmt.descSemanticView _ _ => true
  | SqlStmt.selectScalar _ => false
  | SqlStmt.selectFromSemanticView _ => true

/-- The consumed surface amended with the two statement forms the
notebook actually issues beyond the listed ones: USE ROLE and the
scalar SELECT with no FROM clause. -/
def amendedSurface (s : SqlStmt) : Bool :=
  consumedSurface s ||
    (match s with
     | SqlStmt.useRole _ => true
     | SqlStmt.selectScalar _ => true
     | _ => false)

/-- Statement forms that create or change the semantic view schema
object. -/
def mutatesSemanticView : SqlStmt → Bool
  | SqlStmt.createOrReplaceSemanticView _ => true
  | _ => false

/-- Statement forms that refer to the semantic view schema object. -/
def refersToSemanticView : SqlStmt → Bool
  | SqlStmt.createOrReplaceSemanticView _ => true
  | SqlStmt.showSemanticViews => true
  | SqlStmt.descSemanticView _ _ => true
  | SqlStmt.selectFromSemanticView _ => true
  | _ => false

/-! ### Part 3: the relationship graph -/

/-- The declared table aliases. -/
def tableAliases : List String := semTables.map TableDecl.tblAlias

/-- The table-reference edge relation induced by the relationships
clause: an edge from the referencing table to the referenced table. -/
def edgeB (a b : String) : Bool :=
  semRels.any fun r => r.src == a && r.dst == b

/-- There is a directed path of exactly k edges from a to b through
the declared tables. -/
def reachesIn : Nat → String → String → Bool
  | 0, a, b => a == b
  | n + 1, a, b => tableAliases.any fun c => edgeB a c && reachesIn n c b

/-- Rank function witnessing that all edges leave the sales fact
table: the fact table has rank 0, every other node rank 1. -/
def tblRank (a : String) : Nat := if a == "STORESALES" then 0 else 1

theorem edgeB_rank_lt (a b : String) (h : edgeB a b = true) : tblRank a < tblRank b := by
  rcases List.any_eq_true.mp h with ⟨r, hr, hp⟩
  rw [Bool.and_eq_true, beq_iff_eq, beq_iff_eq] at hp
  simp only [semRels, List.mem_cons, List.not_mem_nil, or_false] at hr
  rcases hr with h1 | h1 | h1 | h1 | h1 <;>
    (subst h1; rcases hp with ⟨ha, hb⟩; rw [← ha, ← hb]; decide)

theorem reachesIn_rank (k : Nat) : ∀ a b : String,
    reachesIn k a b = true → tblRank a + k ≤ tblRank b := by
  induction k with
  | zero =>
    intro a b h
    rw [reachesIn, beq_iff_eq] at h
    subst h
    omega
  | succ n ih =>
    intro a b h
    rw [reachesIn] at h
    rcases List.any_eq_true.mp h with ⟨c, _, hp⟩
    rw [Bool.and_eq_true] at hp
    have h1 := edgeB_rank_lt a c hp.1
    have h2 := ih c b hp.2
    omega

/-! ### Part 4: the dataframe and the two Streamlit cells

The query result table df has the columns used by the apps: BRAND and
STATE (nullable strings, a missing cell standing for NaN) and
TOTALSALESQUANTITY (an integer). -/

/-- One row of the result table df. -/
structure Row where
  brand : Option String
  state : Option String
  quantity : Int
deriving DecidableEq

/-- The column selected by the selectbox value group_by: the BRAND
branch when group_by is BRAND, the else branch reading STATE. -/
def groupColumn (group_by : String) (r : Row) : Option String :=
  if group_by == "BRAND" then r.brand else r.state

/-- Code-point comparison of character lists, the ascending order used
when sorting group keys. -/
def strLeAux : List Char → List Char → Bool
  | [], _ => true
  | _ :: _, [] => false
  | a :: as, b :: bs =>
    if a.val.toNat < b.val.toNat then true
    else if b.val.toNat < a.val.toNat then false
    else strLeAux as bs

/-- Code-point comparison of strings. -/
def strLe (a b : String) : Bool := strLeAux a.data b.data

/-- Sort a list of group keys ascending, as groupby does. -/
def sortKeys (l : List String) : List String :=
  l.insertionSort fun a b => strLe a b = true

/-- The group keys produced by df.groupby(col): the distinct non-null
values of the column, sorted ascending. -/
def groupKeys (group_by : String) (df : List Row) : List String :=
  sortKeys (df.filterMap (groupColumn group_by)).dedup

/-- The per-group aggregate: the sum of TOTALSALESQUANTITY over the
rows of df whose selected column holds the key k. -/
def groupSum (group_by : String) (df : List Row) (k : String) : Int :=
  ((df.filter fun r => groupColumn group_by r == some k).map Row.quantity).sum

/-- The grouped_data table computed by both apps:
df.groupby(col)[TOTALSALESQUANTITY].sum(), one row per key. -/
def groupedData (group_by : String) (df : List Row) : List (String × Int) :=
  (groupKeys group_by df).map fun k => (k, groupSum group_by df k)

/-- The total_sales KPI: df[TOTALSALESQUANTITY].sum(). -/
def totalSales (df : List Row) : Int := (df.map Row.quantity).sum

/-- Pandas Series.mean(): NaN (here none) on an empty series, else the
sum divided by the length. -/
def seriesMean : List Int → Option ℚ
  | [] => none
  | v :: rest => some (((v :: rest).sum : ℚ) / ((v :: rest).length : ℚ))

/-- Running maximum of the tail given the current maximum. -/
def maxAux : Int → List Int → Int
  | m, [] => m
  | m, v :: rest => maxAux (max m v) rest

/-- Pandas Series.max(): NaN (here none) on an empty series, else the
greatest element. -/
def seriesMax : List Int → Option Int
  | [] => none
  | v :: rest => some (maxAux v rest)

/-- Scan of the remaining (key, value) pairs keeping the current best,
replacing it only on a strictly larger value, so the first key
attaining the maximum wins, as Series.idxmax() does. -/
def bestAux : (String × Int) → List (String × Int) → String × Int
  | best, [] => best
  | best, p :: rest => bestAux (if p.2 > best.2 then p else best) rest

/-- Pandas Series.idxmax(): raises on an empty series (here none),
else the index label of the first occurrence of the maximum. -/
def seriesIdxmax : List (String × Int) → Option String
  | [] => none
  | p :: rest => some (bestAux p rest).1

/-- Python str.title() restricted to the single-word selectbox options
used here: lowercase the word, then capitalize its first letter. -/
def pyTitle (s : String) : String := s.toLower.capitalize

/-- The delta annotation of a KPI card: the share of the total, the
count of distinct states, or the name of the top group. -/
inductive DeltaVal where
  | pctOfTotal (x : ℚ)
  | stateCount (n : Nat)
  | groupName (s : String)
deriving DecidableEq

/-- One rendered Streamlit widget, carrying the data handed to the
rendering primitive. -/
inductive Widget where
  | title (s : String)
  | selectbox (label : String) (options : List String) (index : Nat) (selected : String)
  | metricCard (label : String) (value : ℚ) (delta : Option DeltaVal)
  | subheader (s : String)
  | barChart (data : List (String × Int))
  | dataframe (data : List (String × Int))
deriving DecidableEq

/-- App 1, the interactive visualization cell, as a function of the
input table, the selectbox value and the checkbox value. -/
def app1Widgets (df : List Row) (group_by : String) (showTable : Bool) : List Widget :=
  [Widget.title "📊 Sales Data Interactive Visualization",
   Widget.selectbox "Select grouping option:" ["BRAND", "STATE"] 0 group_by,
   Widget.subheader (if group_by == "BRAND" then "Total Sales Quantity by Brand"
                     else "Total Sales Quantity by State"),
   Widget.barChart (groupedData group_by df)]
  ++ (if showTable then
        [Widget.subheader "Grouped Data", Widget.dataframe (groupedData group_by df)]
      else [])

/-- App 2, the dashboard cell, as a function of the input table, the
selectbox value and the checkbox value.  The cell computes
grouped_data, total_sales, avg_sales, top_performer and
top_performer_name and then renders the three KPI cards, the chart and
optionally the table; when the mean, the maximum or idxmax is
undefined (empty input) the cell fails, modelled as none. -/
def app2Body (df : List Row) (group_by : String) (showTable : Bool)
    (avg_sales : ℚ) (top_performer : Int) (top_performer_name : String) : List Widget :=
  [Widget.title "📊 Sales Data Dashboard",
   Widget.selectbox "Select grouping option:" ["BRAND", "STATE"] 0 group_by,
   Widget.metricCard "Total Sales Quantity" (totalSales df : ℚ) none,
   (if group_by == "BRAND" then
      Widget.metricCard "Average Sales per Brand" avg_sales
        (some (DeltaVal.pctOfTotal (avg_sales / (totalSales df : ℚ) * 100)))
    else
      Widget.metricCard "Average Sales per State" avg_sales
        (some (DeltaVal.stateCount (df.map Row.state).dedup.length))),
   Widget.metricCard ("Top " ++ pyTitle group_by) (top_performer : ℚ)
     (some (DeltaVal.groupName top_performer_name)),
   Widget.subheader (if group_by == "BRAND" then "Total Sales Quantity by Brand"
                     else "Total Sales Quantity by State"),
   Widget.barChart (groupedData group_by df)]
  ++ (if showTable then
        [Widget.subheader "Grouped Data", Widget.dataframe (groupedData group_by df)]
      else [])

def app2Widgets (df : List Row) (group_by : String) (showTable : Bool) : Option (List Widget) :=
  match seriesMean (df.map Row.quantity),
        seriesMax ((groupedData group_by df).map Prod.snd),
        seriesIdxmax (groupedData group_by df) with
  | some avg_sales, some top_performer, some top_performer_name =>
    some (app2Body df group_by showTable avg_sales top_performer top_performer_name)
  | _, _, _ => none

/-- The data handed to the first bar-chart render of a widget list. -/
def chartData : List Widget → Option (List (String × Int))
  | [] => none
  | Widget.barChart d :: _ => some d
  | _ :: ws => chartData ws

/-- The KPI cards of a widget list, in render order. -/
def metricCards : List Widget → List (String × ℚ × Option DeltaVal)
  | [] => []
  | Widget.metricCard l v d :: ws => (l, v, d) :: metricCards ws
  | _ :: ws => metricCards ws

/-- The KPI cards rendered by the App 2 cell. -/
def app2Kpis (df : List Row) (group_by : String) (showTable : Bool) :
    Option (List (String × ℚ × Option DeltaVal)) :=
  (app2Widgets df group_by showTable).map metricCards

/-- The data handed to the bar chart of the App 2 cell. -/
def app2ChartData (df : List Row) (group_by : String) (showTable : Bool) :
    Option (List (String × Int)) :=
  (app2Widgets df group_by showTable).bind chartData

/-! ### Helper lemmas about the grouping pipeline -/

theorem sortKeys_perm (l : List String) : (sortKeys l).Perm l :=
  List.perm_insertionSort _ l

theorem groupKeys_nodup (group_by : String) (df : List Row) :
    (groupKeys group_by df).Nodup :=
  (sortKeys_perm _).symm.nodup (List.nodup_dedup _)

theorem groupKeys_mem (group_by : String) (df : List Row) (k : String) :
    k ∈ groupKeys group_by df ↔ ∃ r ∈ df, groupColumn group_by r = some k := by
  rw [groupKeys, (sortKeys_perm _).mem_iff, List.mem_dedup, List.mem_filterMap]

theorem groupedData_fst (group_by : String) (df : List Row) :
    (groupedData group_by df).map Prod.fst = groupKeys group_by df := by
  rw [groupedData, List.map_map]
  exact List.map_id _

theorem groupedData_mem_elim (group_by : String) (df : List Row) (p : String × Int)
    (hp : p ∈ groupedData group_by df) :
    p.1 ∈ groupKeys group_by df ∧ p.2 = groupSum group_by df p.1 := by
  rcases List.mem_map.mp hp with ⟨k, hk, he⟩
  rw [← he]
  exact ⟨hk, rfl⟩

theorem sum_filter_eq_sum_ite (p : Row → Bool) (df : List Row) :
    ((df.filter p).map Row.quantity).sum
      = (df.map fun r => if p r then r.quantity else 0).sum := by
  induction df with
  | nil => rfl
  | cons r t ih =>
    by_cases h : p r = true
    · simp [List.filter_cons, h, ih]
    · simp only [Bool.not_eq_true] at h
      simp [List.filter_cons, h, ih]

theorem sum_map_const_zero (df : List Row) :
    (df.map fun _ => (0 : Int)).sum = 0 := by
  induction df with
  | nil => rfl
  | cons r t ih => simp [ih]

theorem sum_map_add_distrib (f g : Row → Int) (df : List Row) :
    (df.map fun r => f r + g r).sum = (df.map f).sum + (df.map g).sum := by
  induction df with
  | nil => rfl
  | cons r t ih => simp [ih]; ring

theorem sum_swap_list (K : List String) (df : List Row) (F : String → Row → Int) :
    (K.map fun k => (df.map (F k)).sum).sum
      = (df.map fun r => (K.map fun k => F k r).sum).sum := by
  induction K with
  | nil => simp [sum_map_const_zero]
  | cons k K ih =>
    simp only [List.map_cons, List.sum_cons, ih]
    rw [← sum_map_add_distrib]

theorem sum_ite_single (K : List String) (v : String) (c : Int)
    (hK : K.Nodup) (hv : v ∈ K) :
    (K.map fun k => if v = k then c else 0).sum = c := by
  induction K with
  | nil => cases hv
  | cons k K ih =>
    rcases List.mem_cons.mp hv with h | h
    · subst h
      have hnotin : v ∉ K := (List.nodup_cons.mp hK).1
      have hz : (K.map fun k => if v = k then c else 0).sum = 0 := by
        have : (K.map fun k => if v = k then c else 0) = K.map fun _ => (0 : Int) := by
          apply List.map_congr_left
          intro a ha
          have : v ≠ a := fun he => hnotin (he ▸ ha)
          simp [this]
        rw [this]
        induction K with
        | nil => rfl
        | cons a t iht => simp
      simp [hz]
    · have hk : v ≠ k := by
        intro he
        exact (List.nodup_cons.mp hK).1 (he ▸ h)
      simp [hk, ih (List.nodup_cons.mp hK).2 h]

/-! ### Helper lemmas about the maximum scan -/

theorem bestAux_mem (l : List (String × Int)) :
    ∀ b : String × Int, bestAux b l ∈ b :: l := by
  induction l with
  | nil => intro b; simp [bestAux]
  | cons p rest ih =>
    intro b
    rw [bestAux]
    rcases List.mem_cons.mp (ih (if p.2 > b.2 then p else b)) with h | h
    · rw [h]
      by_cases hc : p.2 > b.2
      · simp [hc]
      · simp [hc]
    · exact List.mem_cons_of_mem _ (List.mem_cons_of_mem _ h)

theorem bestAux_ge_init (l : List (String × Int)) :
    ∀ b : String × Int, b.2 ≤ (bestAux b l).2 := by
  induction l with
  | nil => intro b; simp [bestAux]
  | cons p rest ih =>
    intro b
    rw [bestAux]
    refine le_trans ?_ (ih (if p.2 > b.2 then p else b))
    by_cases hc : p.2 > b.2
    · simp [hc]; omega
    · simp [hc]

theorem bestAux_ge (l : List (String × Int)) :
    ∀ b : String × Int, ∀ q ∈ l, q.2 ≤ (bestAux b l).2 := by
  induction l with
  | nil => intro b q hq; cases hq
  | cons p rest ih =>
    intro b q hq
    rw [bestAux]
    rcases List.mem_cons.mp hq with h | h
    · subst h
      refine le_trans ?_ (bestAux_ge_init rest (if q.2 > b.2 then q else b))
      by_cases hc : q.2 > b.2
      · simp [hc]
      · simp [hc]; omega
    · exact ih _ q h

theorem bestAux_snd_eq_maxAux (l : List (String × Int)) :
    ∀ b : String × Int, (bestAux b l).2 = maxAux b.2 (l.map Prod.snd) := by
  induction l with
  | nil => intro b; rfl
  | cons p rest ih =>
    intro b
    rw [bestAux, List.map_cons, maxAux, ih]
    congr 1
    by_cases hc : p.2 > b.2
    · simp [hc]; omega
    · simp [hc]; omega

/-! ### Helper lemmas about the rendered widget lists -/

theorem app1_chartData (df : List Row) (group_by : String) (showTable : Bool) :
    chartData (app1Widgets df group_by showTable) = some (groupedData group_by df) := by
  rfl

theorem metricCards_append (xs ys : List Widget) :
    metricCards (xs ++ ys) = metricCards xs ++ metricCards ys := by
  induction xs with
  | nil => rfl
  | cons w ws ih =>
    cases w <;> simp [metricCards, ih]

theorem chartData_append_some (xs ys : List Widget) (d : List (String × Int))
    (h : chartData xs = some d) : chartData (xs ++ ys) = some d := by
  induction xs with
  | nil => cases h
  | cons w ws ih =>
    cases w <;> simp [chartData] at h ⊢ <;> try exact ih h
    exact h

theorem metricCards_table_tail (gd : List (String × Int)) (s : Bool) :
    metricCards (if s then [Widget.subheader "Grouped Data", Widget.dataframe gd]
                 else []) = [] := by
  cases s <;> rfl

theorem app2Widgets_eq_some (df : List Row) (group_by : String) (s : Bool)
    (q : String × Int) (rest : List (String × Int)) (r0 : Row) (t : List Row)
    (hdf : df = r0 :: t) (hgd : groupedData group_by df = q :: rest) :
    app2Widgets df group_by s =
      some (app2Body df group_by s
        (((df.map Row.quantity).sum : ℚ) / ((df.map Row.quantity).length : ℚ))
        ((bestAux q rest).2) ((bestAux q rest).1)) := by
  subst hdf
  rw [app2Widgets, hgd]
  simp only [List.map_cons, seriesMean, seriesMax, seriesIdxmax]
  rw [← bestAux_snd_eq_maxAux rest q]

theorem app2Body_chartData (df : List Row) (group_by : String) (s : Bool)
    (avg : ℚ) (top : Int) (nm : String) :
    chartData (app2Body df group_by s avg top nm) = some (groupedData group_by df) := by
  rw [app2Body]
  apply chartData_append_some
  cases hb : group_by == "BRAND" <;> simp [chartData, hb]

theorem app2Body_metricCards (df : List Row) (group_by : String) (s : Bool)
    (avg : ℚ) (top : Int) (nm : String) :
    metricCards (app2Body df group_by s avg top nm) =
      [("Total Sales Quantity", ((totalSales df : Int) : ℚ), none),
       (if group_by == "BRAND" then
          ("Average Sales per Brand", avg,
           some (DeltaVal.pctOfTotal (avg / (totalSales df : ℚ) * 100)))
        else
          ("Average Sales per State", avg,
           some (DeltaVal.stateCount (df.map Row.state).dedup.length))),
       ("Top " ++ pyTitle group_by, (top : ℚ),
        some (DeltaVal.groupName nm))] := by
  rw [app2Body, metricCards_append, metricCards_table_tail]
  cases hb : group_by == "BRAND" <;> simp [metricCards, hb]

/-! ### Sample tables used as concrete inputs -/

/-- A three-row result table with brands A, A, B in states TX, TX, CA. -/
def dfS : List Row :=
  [⟨some "B", some "CA", 5⟩, ⟨some "A", some "TX", 3⟩, ⟨some "A", some "TX", 4⟩]

/-- A one-row result table: brand A, quantity 4. -/
def dfA : List Row := [⟨some "A", some "TX", 4⟩]

/-- A two-row result table with the same BRAND grouping result as dfA
(the second row has a missing BRAND, so groupby drops it) but a
different total. -/
def dfB : List Row := [⟨some "A", some "TX", 4⟩, ⟨none, some "TX", 7⟩]

/-- The column name carries the surrogate-key suffix _SK. -/
def isSurrogateKey (c : String) : Bool := c.data.reverse.take 3 == ['K', 'S', '_']

/-! ### The claims -/

/-- C1 counterexample: dfA and dfB have identical BRAND group-by/sum
results, yet App 2 computes a different total KPI and renders
different KPI cards, so the group-by/sum is not the only client-side
computation the apps perform on the data. -/
theorem C1_counterexample :
    groupedData "BRAND" dfA = groupedData "BRAND" dfB ∧
    totalSales dfA ≠ totalSales dfB ∧
    app2Kpis dfA "BRAND" false ≠ app2Kpis dfB "BRAND" false := by
  refine ⟨by decide, by decide, ?_⟩
  have e1 := app2Widgets_eq_some dfA "BRAND" false ("A", 4) []
    ⟨some "A", some "TX", 4⟩ [] rfl (by decide)
  have e2 := app2Widgets_eq_some dfB "BRAND" false ("A", 4) []
    ⟨some "A", some "TX", 4⟩ [⟨none, some "TX", 7⟩] rfl (by decide)
  rw [app2Kpis, app2Kpis, e1, e2, Option.map_some', Option.map_some',
      app2Body_metricCards, app2Body_metricCards]
  intro h
  rw [Option.some.injEq, List.cons.injEq] at h
  rcases h with ⟨h1, -⟩
  rw [Prod.mk.injEq] at h1
  rcases h1 with ⟨-, h2⟩
  rw [Prod.mk.injEq] at h2
  rcases h2 with ⟨h3, -⟩
  have h4 : totalSales dfA = totalSales dfB := by exact_mod_cast h3
  rw [show totalSales dfA = 4 from by decide,
      show totalSales dfB = 11 from by decide] at h4
  exact absurd h4 (by decide)

/-- C1 (amended): for every input table and grouping selection, the
grouped table of both apps has exactly one row per distinct non-null
value of the selected column, carrying the sum of TOTALSALESQUANTITY
over the rows with that value; App 1 performs no other computation on
the data (its full output depends on df only through the grouped
table), and the bar chart of each app renders exactly the grouped
table; App 2 additionally computes the KPI aggregates. -/
theorem C1_grouping_amended (df df' : List Row) (group_by : String) (s : Bool)
    (p : String × Int) (hp : p ∈ groupedData group_by df)
    (hdf : groupedData group_by df = groupedData group_by df') :
    ((groupedData group_by df).map Prod.fst).Nodup ∧
    (∀ k : String, k ∈ (groupedData group_by df).map Prod.fst ↔
        ∃ r ∈ df, groupColumn group_by r = some k) ∧
    p.2 = ((df.filter fun r => groupColumn group_by r == some p.1).map Row.quantity).sum ∧
    app1Widgets df group_by s = app1Widgets df' group_by s ∧
    chartData (app1Widgets df group_by s) = some (groupedData group_by df) ∧
    (∀ ws, app2Widgets df group_by s = some ws →
        chartData ws = some (groupedData group_by df)) := by
  refine ⟨?_, ?_, ?_, ?_, app1_chartData df group_by s, ?_⟩
  · rw [groupedData_fst]
    exact groupKeys_nodup group_by df
  · intro k
    rw [groupedData_fst]
    exact groupKeys_mem group_by df k
  · exact (groupedData_mem_elim group_by df p hp).2
  · rw [app1Widgets, app1Widgets, hdf]
  · intro ws h
    rw [app2Widgets] at h
    split at h
    · rw [Option.some.injEq] at h
      rw [← h]
      exact app2Body_chartData df group_by s _ _ _
    · cases h

/-- C1 witness: the amended grouping property instantiated on the
concrete table dfA with its single group row. -/
theorem C1_grouping_amended_witness :
    ((groupedData "BRAND" dfA).map Prod.fst).Nodup ∧
    (∀ k : String, k ∈ (groupedData "BRAND" dfA).map Prod.fst ↔
        ∃ r ∈ dfA, groupColumn "BRAND" r = some k) ∧
    (("A", (4 : Int)) : String × Int).2 =
      ((dfA.filter fun r => groupColumn "BRAND" r ==
          some (("A", (4 : Int)) : String × Int).1).map Row.quantity).sum ∧
    app1Widgets dfA "BRAND" false = app1Widgets dfA "BRAND" false ∧
    chartData (app1Widgets dfA "BRAND" false) = some (groupedData "BRAND" dfA) ∧
    (∀ ws, app2Widgets dfA "BRAND" false = some ws →
        chartData ws = some (groupedData "BRAND" dfA)) :=
  C1_grouping_amended dfA dfA "BRAND" false ("A", 4) (by decide) rfl

/-- C2 counterexample: the metric TOTALCOST is qualified by the alias
STORESALES, but its expression SUM(item.cost) resolves through the
fact ITEM.COST to the column I_WHOLESALE_COST of the table ITEM, not
to a column of STORESALES, so the claim as stated is false. -/
theorem C2_counterexample :
    claimC2Holds = false ∧
    MetricDecl.mk "STORESALES" "TOTALCOST" (MetricExpr.sumFieldRef "ITEM" "COST")
      ∈ semMetrics ∧
    resolveMetric
      (MetricDecl.mk "STORESALES" "TOTALCOST" (MetricExpr.sumFieldRef "ITEM" "COST"))
      = some ("ITEM", "I_WHOLESALE_COST") ∧
    ("ITEM" : String) ≠ "STORESALES" := by
  decide

/-- C2 (amended): every fact, dimension and metric of the semantic
view is qualified by exactly one declared table alias, and resolves to
exactly one underlying column of exactly one declared table; for every
fact and dimension that table is the qualifying one, and for the
metrics it is the qualifying table except for TOTALCOST, whose
expression SUM(item.cost) resolves to the column I_WHOLESALE_COST of
the table ITEM. -/
theorem C2_resolution_amended :
    (semFacts.all fun f => qualifiedByExactlyOneTable f.tbl) = true ∧
    (semDims.all fun d => qualifiedByExactlyOneTable d.tbl) = true ∧
    (semMetrics.all fun m => qualifiedByExactlyOneTable m.tbl) = true ∧
    (semMetrics.all fun m =>
        match resolveMetric m with
        | some (t, _) => qualifiedByExactlyOneTable t
        | none => false) = true ∧
    (semMetrics.all fun m =>
        m.name == "TOTALCOST" || metricResolvesInOwnTable m) = true ∧
    resolveMetric
      (MetricDecl.mk "STORESALES" "TOTALCOST" (MetricExpr.sumFieldRef "ITEM" "COST"))
      = some ("ITEM", "I_WHOLESALE_COST") := by
  decide

/-- C3: the five declared relationships give a one-edge join path from
the sales fact table STORESALES to each declared dimension table, and
the directed table-reference graph has no cycle of any length. -/
theorem C3_join_paths_and_acyclic :
    (["CUSTOMER", "DATE", "DEMO", "ITEM", "STORE"].all fun d =>
        reachesIn 1 "STORESALES" d) = true ∧
    ∀ k : Nat, ∀ a : String, reachesIn (k + 1) a a = false := by
  constructor
  · decide
  · intro k a
    cases hx : reachesIn (k + 1) a a with
    | false => rfl
    | true => exact absurd (reachesIn_rank (k + 1) a a hx) (by omega)

/-- C4: the relationships clause holds exactly five links, all from
STORESALES (base table STORE_SALES) to the five dimension tables named
by the claim (matched by alias or by base table), each referencing the
declared primary key of the target (hence many-to-one from the fact
table), and both columns of every link are surrogate keys. -/
theorem C4_relationships :
    semRels.length = 5 ∧
    (semRels.all fun r => r.src == "STORESALES") = true ∧
    ((semTables.find? fun t => t.tblAlias == "STORESALES").map TableDecl.baseTable)
      = some "STORE_SALES" ∧
    semRels.map RelDecl.dst = ["CUSTOMER", "DATE", "DEMO", "ITEM", "STORE"] ∧
    (["CUSTOMER", "DATE", "CUSTOMER_DEMOGRAPHICS", "ITEM", "STORE"].all fun n =>
        semRels.any fun r => r.dst == n ||
          ((semTables.find? fun t => t.tblAlias == r.dst).map TableDecl.baseTable)
            == some n) = true ∧
    (semRels.all fun r =>
        ((semTables.find? fun t => t.tblAlias == r.dst).map TableDecl.primaryKey)
          == some r.dstCol) = true ∧
    (semRels.all fun r => isSurrogateKey r.dstCol && isSurrogateKey r.srcCol) = true := by
  decide

/-- C5 counterexample: the notebook executes a USE ROLE statement and
a scalar SELECT with no FROM clause (the Cortex Analyst URL), neither
of which is a form of the SQL surface listed by the claim. -/
theorem C5_counterexample :
    SqlStmt.useRole "ACCOUNTADMIN" ∈ notebookStatements ∧
    consumedSurface (SqlStmt.useRole "ACCOUNTADMIN") = false ∧
    SqlStmt.selectScalar "CORTEX_ANALYST_URL" ∈ notebookStatements ∧
    consumedSurface (SqlStmt.selectScalar "CORTEX_ANALYST_URL") = false := by
  decide

/-- C5 (amended): every SQL statement the notebook issues is one of
the listed forms, or the USE ROLE statement, or the scalar SELECT that
builds the Cortex Analyst URL. -/
theorem C5_surface_amended :
    notebookStatements.all amendedSurface = true := by
  decide

/-- C6: exactly one statement of the notebook creates or changes the
semantic view (the CREATE OR REPLACE at position 4); every following
statement, in particular the ones that refer to the view, leaves the
schema object unchanged. -/
theorem C6_created_once_then_read_only :
    notebookStatements.countP mutatesSemanticView = 1 ∧
    notebookStatements[4]? =
      some (SqlStmt.createOrReplaceSemanticView "TPCDS_SEMANTIC_VIEW_SM") ∧
    ((notebookStatements.drop 5).all fun s => !(mutatesSemanticView s)) = true ∧
    ((notebookStatements.drop 5).all fun s =>
        !(refersToSemanticView s && mutatesSemanticView s)) = true := by
  decide

/-- C10: on an empty query result the dashboard cell does not complete:
the mean of zero rows is undefined (NaN), idxmax on the empty grouped
series raises, and the App 2 cell yields no rendered output for either
grouping selection. -/
theorem C10_empty_result_fails :
    seriesMean ([] : List Int) = none ∧
    seriesIdxmax (groupedData "BRAND" ([] : List Row)) = none ∧
    seriesIdxmax (groupedData "STATE" ([] : List Row)) = none ∧
    app2Widgets ([] : List Row) "BRAND" false = none ∧
    app2Widgets ([] : List Row) "STATE" false = none := by
  refine ⟨rfl, rfl, rfl, rfl, rfl⟩

/-- C7: when the result table and its grouped table are nonempty, the
dashboard renders exactly three KPI cards: the total (the sum of
TOTALSALESQUANTITY over all rows of df), the average (the arithmetic
mean over all rows of df, with its delta annotation), and the top
performer (a value attained by some group, at least every group sum,
labelled with the group key attaining it). -/
theorem C7_kpi_cards (df : List Row) (group_by : String)
    (r0 : Row) (t : List Row) (q : String × Int) (rest : List (String × Int))
    (hdf : df = r0 :: t) (hgd : groupedData group_by df = q :: rest) :
    ∃ ws, ∃ avg : ℚ, ∃ top : Int, ∃ nm : String,
      app2Widgets df group_by false = some ws ∧
      metricCards ws =
        [("Total Sales Quantity", ((totalSales df : Int) : ℚ), none),
         (if group_by == "BRAND" then
            ("Average Sales per Brand", avg,
             some (DeltaVal.pctOfTotal (avg / (totalSales df : ℚ) * 100)))
          else
            ("Average Sales per State", avg,
             some (DeltaVal.stateCount (df.map Row.state).dedup.length))),
         ("Top " ++ pyTitle group_by, (top : ℚ), some (DeltaVal.groupName nm))] ∧
      totalSales df = (df.map Row.quantity).sum ∧
      avg = ((df.map Row.quantity).sum : ℚ) / ((df.map Row.quantity).length : ℚ) ∧
      (nm, top) ∈ groupedData group_by df ∧
      (∀ pp ∈ groupedData group_by df, pp.2 ≤ top) := by
  refine ⟨_, _, (bestAux q rest).2, (bestAux q rest).1,
    app2Widgets_eq_some df group_by false q rest r0 t hdf hgd,
    app2Body_metricCards df group_by false _ _ _, rfl, rfl, ?_, ?_⟩
  · rw [hgd]
    exact bestAux_mem rest q
  · intro pp hpp
    rw [hgd] at hpp
    rcases List.mem_cons.mp hpp with h | h
    · rw [h]
      exact bestAux_ge_init rest q
    · exact bestAux_ge rest q pp h

/-- C7 witness: the KPI property instantiated on the three-row table
dfS grouped by BRAND. -/
theorem C7_kpi_cards_witness :
    ∃ ws, ∃ avg : ℚ, ∃ top : Int, ∃ nm : String,
      app2Widgets dfS "BRAND" false = some ws ∧
      metricCards ws =
        [("Total Sales Quantity", ((totalSales dfS : Int) : ℚ), none),
         (if "BRAND" == "BRAND" then
            ("Average Sales per Brand", avg,
             some (DeltaVal.pctOfTotal (avg / (totalSales dfS : ℚ) * 100)))
          else
            ("Average Sales per State", avg,
             some (DeltaVal.stateCount (dfS.map Row.state).dedup.length))),
         ("Top " ++ pyTitle "BRAND", (top : ℚ), some (DeltaVal.groupName nm))] ∧
      totalSales dfS = (dfS.map Row.quantity).sum ∧
      avg = ((dfS.map Row.quantity).sum : ℚ) / ((dfS.map Row.quantity).length : ℚ) ∧
      (nm, top) ∈ groupedData "BRAND" dfS ∧
      (∀ pp ∈ groupedData "BRAND" dfS, pp.2 ≤ top) :=
  C7_kpi_cards dfS "BRAND" ⟨some "B", some "CA", 5⟩
    [⟨some "A", some "TX", 3⟩, ⟨some "A", some "TX", 4⟩]
    ("A", 7) [("B", 5)] rfl (by decide)

theorem app2Kpis_showTable_irrel (df : List Row) (group_by : String) (s : Bool) :
    app2Kpis df group_by s = app2Kpis df group_by false := by
  rw [app2Kpis, app2Kpis]
  simp only [app2Widgets]
  cases hm : seriesMean (df.map Row.quantity) with
  | none => rfl
  | some avg =>
    cases hx : seriesMax ((groupedData group_by df).map Prod.snd) with
    | none => rfl
    | some top =>
      cases hi : seriesIdxmax (groupedData group_by df) with
      | none => rfl
      | some nm =>
        simp only [Option.map_some']
        rw [app2Body_metricCards, app2Body_metricCards]

theorem app2ChartData_showTable_irrel (df : List Row) (group_by : String) (s : Bool) :
    app2ChartData df group_by s = app2ChartData df group_by false := by
  rw [app2ChartData, app2ChartData]
  simp only [app2Widgets]
  cases hm : seriesMean (df.map Row.quantity) with
  | none => rfl
  | some avg =>
    cases hx : seriesMax ((groupedData group_by df).map Prod.snd) with
    | none => rfl
    | some top =>
      cases hi : seriesIdxmax (groupedData group_by df) with
      | none => rfl
      | some nm =>
        simp only [Option.some_bind]
        rw [app2Body_chartData, app2Body_chartData]

/-- C8: both rendering cells are deterministic pure functions of the
input table and the grouping selection: two executions with equal df
and equal grouping produce the same grouped table, the same chart
input in both apps, and the same KPI cards, independently of anything
else (in particular of the show-table checkbox). -/
theorem C8_determinism (df df' : List Row) (gb gb' : String) (s s' : Bool)
    (hdf : df = df') (hgb : gb = gb') :
    groupedData gb df = groupedData gb' df' ∧
    chartData (app1Widgets df gb s) = chartData (app1Widgets df' gb' s') ∧
    app2Kpis df gb s = app2Kpis df' gb' s' ∧
    app2ChartData df gb s = app2ChartData df' gb' s' := by
  subst hdf
  subst hgb
  refine ⟨rfl, ?_, ?_, ?_⟩
  · rw [app1_chartData, app1_chartData]
  · rw [app2Kpis_showTable_irrel df gb s, app2Kpis_showTable_irrel df gb s']
  · rw [app2ChartData_showTable_irrel df gb s, app2ChartData_showTable_irrel df gb s']

/-- C8 witness: determinism instantiated on dfS with the two checkbox
states. -/
theorem C8_determinism_witness :
    groupedData "BRAND" dfS = groupedData "BRAND" dfS ∧
    chartData (app1Widgets dfS "BRAND" true) = chartData (app1Widgets dfS "BRAND" false) ∧
    app2Kpis dfS "BRAND" true = app2Kpis dfS "BRAND" false ∧
    app2ChartData dfS "BRAND" true = app2ChartData dfS "BRAND" false :=
  C8_determinism dfS dfS "BRAND" "BRAND" true false rfl rfl

theorem sum_beq_eq_ite (K : List String) (v : String) (c : Int) :
    (K.map fun k => if (some v : Option String) == some k then c else 0)
      = K.map fun k => if v = k then c else 0 := by
  apply List.map_congr_left
  intro a _
  by_cases hva : v = a
  · simp [hva]
  · simp [hva]

/-- C9: when the selected grouping column has no missing value, the
per-group sums of grouped_data add up to total_sales, the sum of
TOTALSALESQUANTITY over all of df, so the Total Sales Quantity KPI
agrees with the bar chart under either grouping choice. -/
theorem C9_group_sums_partition_total (df : List Row) (group_by : String)
    (h : ∀ r ∈ df, (groupColumn group_by r).isSome) :
    ((groupedData group_by df).map Prod.snd).sum = totalSales df := by
  have h1 : (groupedData group_by df).map Prod.snd
      = (groupKeys group_by df).map fun k => groupSum group_by df k := by
    rw [groupedData, List.map_map]
    rfl
  rw [h1, totalSales]
  have h2 : (groupKeys group_by df).map (fun k => groupSum group_by df k)
      = (groupKeys group_by df).map
          (fun k => (df.map fun r =>
             if groupColumn group_by r == some k then r.quantity else 0).sum) := by
    apply List.map_congr_left
    intro k _
    exact sum_filter_eq_sum_ite _ df
  rw [h2, sum_swap_list]
  have h3 : (df.map fun r => ((groupKeys group_by df).map fun k =>
      if groupColumn group_by r == some k then r.quantity else 0).sum)
      = df.map Row.quantity := by
    apply List.map_congr_left
    intro r hr
    rcases Option.isSome_iff_exists.mp (h r hr) with ⟨v, hv⟩
    have hvk : v ∈ groupKeys group_by df :=
      (groupKeys_mem group_by df v).mpr ⟨r, hr, hv⟩
    simp only [hv]
    rw [sum_beq_eq_ite (groupKeys group_by df) v r.quantity]
    exact sum_ite_single (groupKeys group_by df) v r.quantity
      (groupKeys_nodup group_by df) hvk
  rw [h3]

/-- C9 witness: the partition property instantiated on dfS, whose
BRAND column has no missing value. -/
theorem C9_group_sums_partition_total_witness :
    ((groupedData "BRAND" dfS).map Prod.snd).sum = totalSales dfS :=
  C9_group_sums_partition_total dfS "BRAND" (by decide)
